import Mathlib

/-!
Shallow embedding of the e-commerce backend's core: cart engine
(src/routes/addresses.js, second module), order materializer and lifecycle
(src/routes/orders.js), the order-code sequence generator
(src/models/Order.js and the Counter model), and the dashboard percentage
helper (src/routes/stats.js).  JavaScript numbers are modelled as `Rat`,
document identifiers as `Nat`, and the document store as explicit state
passed through each handler.  Each HTTP handler becomes a function from its
inputs and the store state to an HTTP status code and the new state.
-/

namespace Shop

/-- One line item of a cart or an order: product reference, captured name,
captured unit price, quantity and computed subtotal
(cartItemSchema / orderItemSchema). -/
structure LineItem where
  product : Nat
  name : String
  price : Rat
  quantity : Nat
  subtotal : Rat
deriving Repr, DecidableEq

/-- A user's cart: list of line items, aggregate total and currency code
(the Cart model). -/
structure Cart where
  items : List LineItem
  totalAmount : Rat
  currency : String
deriving Repr, DecidableEq

/-- A catalog product with its active flag (the Product model). -/
structure Product where
  id : Nat
  name : String
  price : Rat
  isActive : Bool
deriving Repr, DecidableEq

/-- The product catalog. -/
abbrev Catalog := List Product

/-- `Product.findOne({ _id: productId, isActive: true })`. -/
def findActiveProduct (cat : Catalog) (pid : Nat) : Option Product :=
  cat.find? (fun p => p.id == pid && p.isActive)

/-- `recalcCart` from src/routes/addresses.js lines 200-207: set each
item's subtotal to price times quantity and recompute the aggregate total
as the sum of the new subtotals. -/
def recalcCart (c : Cart) : Cart :=
  let items := c.items.map (fun it => { it with subtotal := it.price * (it.quantity : Rat) })
  { c with items := items, totalAmount := (items.map (fun it => it.subtotal)).sum }

/-- Increase the quantity of the first line item matching `pid` by `qty`
(`cart.items[idx].quantity += qty` after `findIndex`). -/
def addQtyTo (pid qty : Nat) : List LineItem → List LineItem
  | [] => []
  | it :: rest =>
    if it.product == pid then { it with quantity := it.quantity + qty } :: rest
    else it :: addQtyTo pid qty rest

/-- Overwrite the quantity of the first line item matching `pid`
(`cart.items[idx].quantity = qty` after `findIndex`). -/
def setQtyIn (pid qty : Nat) : List LineItem → List LineItem
  | [] => []
  | it :: rest =>
    if it.product == pid then { it with quantity := qty } :: rest
    else it :: setQtyIn pid qty rest

/-- Remove the first line item matching `pid`
(`cart.items.splice(idx, 1)` after `findIndex`). -/
def removeFirst (pid : Nat) : List LineItem → List LineItem
  | [] => []
  | it :: rest => if it.product == pid then rest else it :: removeFirst pid rest

/-- The cart mutation of POST /add once the product is resolved: if the
product is already a line item increase its quantity, otherwise append a
new line item capturing the product's current name and price; then
recalculate (src/routes/addresses.js lines 260-273). -/
def cartAddItem (p : Product) (qty : Nat) (c : Cart) : Cart :=
  if c.items.any (fun i => i.product == p.id) then
    recalcCart { c with items := addQtyTo p.id qty c.items }
  else
    recalcCart { c with items := c.items ++
      [{ product := p.id, name := p.name, price := p.price, quantity := qty,
         subtotal := p.price * (qty : Rat) }] }

/-- The cart mutation of PATCH /item/:productId: 404 when the product is
not in the cart; quantity 0 removes the line item, otherwise the quantity
is overwritten; then recalculate (src/routes/addresses.js lines 296-308). -/
def cartSetQuantity (c : Cart) (pid qty : Nat) : Except Nat Cart :=
  if c.items.any (fun i => i.product == pid) then
    .ok (recalcCart { c with
      items := if qty == 0 then removeFirst pid c.items else setQtyIn pid qty c.items })
  else
    .error 404

/-- The cart mutation of DELETE /item/:productId: drop every line item for
the product; 404 when nothing was dropped; then recalculate
(src/routes/addresses.js lines 326-332). -/
def cartRemove (c : Cart) (pid : Nat) : Except Nat Cart :=
  let kept := c.items.filter (fun i => !(i.product == pid))
  if kept.length == c.items.length then .error 404
  else .ok (recalcCart { c with items := kept })

/-- The cart mutation of DELETE /: empty the items and zero the total
(src/routes/addresses.js lines 345-348). -/
def cartClear (c : Cart) : Cart :=
  { c with items := [], totalAmount := 0 }

/-- One cart mutation request, as named by the four cart routes. -/
inductive CartOp where
  | addOp (pid qty : Nat)
  | setQtyOp (pid qty : Nat)
  | removeOp (pid : Nat)
  | clearOp
deriving Repr, DecidableEq

/-- Apply one mutation to a cart.  A failing mutation (missing product,
item not in cart) returns before `cart.save()`, so the persisted cart is
unchanged. -/
def applyOp (cat : Catalog) (c : Cart) : CartOp → Cart
  | .addOp pid qty =>
    match findActiveProduct cat pid with
    | none => c
    | some p => cartAddItem p qty c
  | .setQtyOp pid qty =>
    match cartSetQuantity c pid qty with
    | .ok c2 => c2
    | .error _ => c
  | .removeOp pid =>
    match cartRemove c pid with
    | .ok c2 => c2
    | .error _ => c
  | .clearOp => cartClear c

/-- Apply a sequence of cart mutations in order. -/
def applyOps (cat : Catalog) (ops : List CartOp) (c : Cart) : Cart :=
  ops.foldl (applyOp cat) c

/-- The spec's total of a list of line items: sum of price times quantity. -/
def itemsTotal (items : List LineItem) : Rat :=
  (items.map (fun it => it.price * (it.quantity : Rat))).sum

/-- The cart total invariant of spec section 3. -/
def cartInvariant (c : Cart) : Prop :=
  c.totalAmount = itemsTotal c.items

/-- The product references of a cart's line items, in order. -/
def cartProducts (c : Cart) : List Nat :=
  c.items.map (fun i => i.product)

/-- Total quantity held by the line items of product `pid`. -/
def qtyIn (pid : Nat) (l : List LineItem) : Nat :=
  ((l.filter (fun i => i.product == pid)).map (fun i => i.quantity)).sum

/-- An order document (the Order model): generated code, owning user,
frozen item list, total, currency, status, notes and the soft-delete flag.
`id` stands for the document's `_id`. -/
structure Order where
  id : Nat
  orderCode : String
  user : Nat
  items : List LineItem
  totalAmount : Rat
  currency : String
  status : String
  notes : String
  isActive : Bool
deriving Repr, DecidableEq

/-- `Order.findById(id)`. -/
def findOrderById (orders : List Order) (oid : Nat) : Option Order :=
  orders.find? (fun o => o.id == oid)

/-- The status enumeration of the order schema. -/
def orderStatuses : List String :=
  ["pending", "paid", "shipped", "delivered", "cancelled", "refunded"]

/-- Roles treated as elevated by the routes. -/
def elevatedRoles : List String := ["admin", "manager"]

/-- POST /:id/cancel (src/routes/orders.js lines 909-934): 404 when the
order is missing or soft-deleted, 403 when the caller is not the owner,
400 when the status is not pending, otherwise set the status to cancelled
and save. -/
def cancelOrderHandler (orders : List Order) (actor oid : Nat) : Nat × List Order :=
  match findOrderById orders oid with
  | none => (404, orders)
  | some o =>
    if !o.isActive then (404, orders)
    else if !(o.user == actor) then (403, orders)
    else if !(o.status == "pending") then (400, orders)
    else (200, orders.map (fun x => if x.id == oid then { x with status := "cancelled" } else x))

/-- GET /:id (src/routes/orders.js lines 693-711): 404 when the order is
missing or soft-deleted, 403 when the caller is neither the owner nor
elevated, otherwise 200. -/
def getOrderHandler (orders : List Order) (actor : Nat) (role : String) (oid : Nat) : Nat :=
  match findOrderById orders oid with
  | none => 404
  | some o =>
    if !o.isActive then 404
    else if !(o.user == actor) && !(elevatedRoles.contains role) then 403
    else 200

/-- PATCH /:id/status (src/routes/orders.js lines 714-748): the validator
rejects a status outside the schema enumeration with 400; the update runs
`findByIdAndUpdate` with no active-only filter, so it matches soft-deleted
orders too; 404 only when no document has the identifier. -/
def updateStatusHandler (orders : List Order) (oid : Nat) (newStatus : String) :
    Nat × List Order :=
  if !(orderStatuses.contains newStatus) then (400, orders)
  else
    match findOrderById orders oid with
    | none => (404, orders)
    | some _ =>
      (200, orders.map (fun x => if x.id == oid then { x with status := newStatus } else x))

/-- The counter document for a named sequence holds the last issued
integer; `findOneAndUpdate` with an atomic increment and `new: true`
returns the incremented value (orderSchema pre-save hook together with the
Counter model).  Result: the returned sequence value and the new stored
value. -/
def counterNext (seq : Nat) : Nat × Nat := (seq + 1, seq + 1)

/-- Format of a generated order code: the fixed prefix followed by the raw
integer with no zero-padding (src/models/Order.js line 71). -/
def formatOrderCode (n : Nat) : String := "ORD-" ++ toString n

/-- The sequence values returned by `n` successive order creations
starting from stored counter value `s`. -/
def runCounter : Nat → Nat → List Nat
  | _, 0 => []
  | s, n + 1 => (counterNext s).1 :: runCounter (counterNext s).2 n

/-- The dashboard percentage-change helper `pct`
(src/routes/stats.js lines 164-168). -/
def pct (curr prev : Rat) : Rat :=
  if prev = 0 ∧ curr = 0 then 0
  else if prev = 0 then 100
  else (curr - prev) / prev * 100

/-- The cart collection, keyed by user identifier. -/
abbrev CartStore := List (Nat × Cart)

/-- Persist an updated cart for a user (`cart.save()`; user keys are
unique, so replacing the first entry is the document update). -/
def setCart : CartStore → Nat → Cart → CartStore
  | [], _, _ => []
  | p :: rest, uid, c => if p.1 == uid then (uid, c) :: rest else p :: setCart rest uid c

/-- A freshly created cart: no items, zero total, the current global
currency (`Cart.create`). -/
def emptyCart (currency : String) : Cart :=
  { items := [], totalAmount := 0, currency := currency }

/-- `getOrCreateCart` (src/routes/addresses.js lines 180-198): return the
user's cart, creating an empty one with the current global currency when
absent; when present, refresh a missing or drifted currency and save. -/
def getOrCreateCart (currency : String) (cs : CartStore) (uid : Nat) : Cart × CartStore :=
  match cs.lookup uid with
  | none => (emptyCart currency, cs ++ [(uid, emptyCart currency)])
  | some c =>
    if c.currency == "" || !(c.currency == currency) then
      ({ c with currency := currency }, setCart cs uid { c with currency := currency })
    else (c, cs)

/-- POST /add (src/routes/addresses.js lines 240-282): resolve the product
first — 400 with no store access when it is missing or inactive — then
fetch or create the cart, apply the add mutation and save. -/
def addToCartHandler (cat : Catalog) (currency : String) (cs : CartStore)
    (uid pid qty : Nat) : Nat × CartStore :=
  match findActiveProduct cat pid with
  | none => (400, cs)
  | some p =>
    let gc := getOrCreateCart currency cs uid
    (201, setCart gc.2 uid (cartAddItem p qty gc.1))

/-- The checkout item loop (src/routes/addresses.js lines 385-397): each
cart line item is re-resolved against the catalog; a missing or inactive
product aborts with no order; otherwise the order line uses the product's
current name and price, and the total accumulates current price times
cart quantity. -/
def buildCheckoutItems (cat : Catalog) : List LineItem → Option (List LineItem × Rat)
  | [] => some ([], 0)
  | i :: rest =>
    match findActiveProduct cat i.product with
    | none => none
    | some p =>
      match buildCheckoutItems cat rest with
      | none => none
      | some pr =>
        some ({ product := p.id, name := p.name, price := p.price, quantity := i.quantity,
                subtotal := p.price * (i.quantity : Rat) } :: pr.1,
              p.price * (i.quantity : Rat) + pr.2)

/-- The spec-side total of a list of cart items priced at the current
catalog price (missing products priced 0; the claims assume none are
missing). -/
def currentTotal (cat : Catalog) (items : List LineItem) : Rat :=
  (items.map (fun i =>
    (((findActiveProduct cat i.product).map (fun p => p.price)).getD 0) * (i.quantity : Rat))).sum

/-- The store state the order routes touch: carts, orders and the order
code counter. -/
structure ShopState where
  carts : CartStore
  orders : List Order
  counter : Nat
deriving Repr, DecidableEq

/-- POST /checkout (src/routes/addresses.js lines 357-420): get or create
the target user's cart (writing a new cart document when absent), reject
an empty cart with 400, re-resolve every product at its current price,
create the order with the currency from global settings, then clear the
cart. -/
def checkoutHandler (cat : Catalog) (settingsCurrency : String) (st : ShopState)
    (uid : Nat) (notes : String) : Nat × ShopState :=
  let gc := getOrCreateCart settingsCurrency st.carts uid
  let st1 : ShopState := { st with carts := gc.2 }
  if gc.1.items.isEmpty then (400, st1)
  else
    match buildCheckoutItems cat gc.1.items with
    | none => (400, st1)
    | some pr =>
      let seq := st1.counter + 1
      let o : Order := { id := st1.orders.length, orderCode := formatOrderCode seq,
                         user := uid, items := pr.1, totalAmount := pr.2,
                         currency := settingsCurrency, status := "pending",
                         notes := notes, isActive := true }
      (201, { carts := setCart st1.carts uid { gc.1 with items := [], totalAmount := 0 },
              orders := st1.orders ++ [o], counter := seq })

/-- An address document, reduced to the fields the order routes branch on
(owner, active flag); the contact fields are copied verbatim into the
order and play no role in the claims. -/
structure Address where
  id : Nat
  user : Nat
  isActive : Bool
deriving Repr, DecidableEq

/-- `Address.findOne({ _id: addressId, user: targetUserId, isActive: true })`. -/
def findActiveAddress (addrs : List Address) (aid uid : Nat) : Option Address :=
  addrs.find? (fun a => a.id == aid && a.user == uid && a.isActive)

/-- The order item loop over `{productId, quantity}` pairs shared by both
order-creation handlers (src/routes/orders.js lines 76-88 and 416-439):
any missing or inactive product aborts with no order, otherwise order
lines capture the current name and price. -/
def buildOrderItemsPairs (cat : Catalog) : List (Nat × Nat) → Option (List LineItem × Rat)
  | [] => some ([], 0)
  | pr :: rest =>
    match findActiveProduct cat pr.1 with
    | none => none
    | some p =>
      match buildOrderItemsPairs cat rest with
      | none => none
      | some acc =>
        some ({ product := p.id, name := p.name, price := p.price, quantity := pr.2,
                subtotal := p.price * (pr.2 : Rat) } :: acc.1,
              p.price * (pr.2 : Rat) + acc.2)

/-- JavaScript `a || b` on strings: the empty string is falsy. -/
def jsOr (a b : String) : String := if a == "" then b else a

/-- Clear a user's cart after order creation when the items came from the
cart (src/routes/orders.js lines 452-459): refetch; when present, empty
items, zero the total and save. -/
def clearUserCart (cs : CartStore) (uid : Nat) : CartStore :=
  match cs.lookup uid with
  | none => cs
  | some c => setCart cs uid { c with items := [], totalAmount := 0 }

/-- Tail of the first POST / order-creation handler
(src/routes/orders.js lines 71-109): build the order items at current
prices and create the order with currency
`currency || currencyFromCart || "USD"` — the client-supplied body value
wins when present; global settings are never consulted.  Then clear the
cart when the items came from it. -/
def v1Finish (cat : Catalog) (st : ShopState) (uid : Nat) (src : List (Nat × Nat))
    (cartCurrency : String) (bodyCurrency : Option String) (notes : String)
    (fromCart : Bool) : Nat × ShopState :=
  match buildOrderItemsPairs cat src with
  | none => (400, st)
  | some pr =>
    let seq := st.counter + 1
    let o : Order := { id := st.orders.length, orderCode := formatOrderCode seq,
                       user := uid, items := pr.1, totalAmount := pr.2,
                       currency := jsOr (bodyCurrency.getD "") (jsOr cartCurrency "USD"),
                       status := "pending", notes := notes, isActive := true }
    let st2 : ShopState := { st with orders := st.orders ++ [o], counter := seq }
    (201, if fromCart then { st2 with carts := clearUserCart st2.carts uid } else st2)

/-- The first POST / order-creation handler (src/routes/orders.js lines
19-115): optional address resolution (404 when a supplied addressId does
not resolve), items from the body or else from the cart (400 when the
cart is absent or empty), then `v1Finish`. -/
def createOrderHandlerV1 (cat : Catalog) (addrs : List Address) (st : ShopState)
    (uid : Nat) (addressId : Option Nat) (bodyItems : Option (List (Nat × Nat)))
    (bodyCurrency : Option String) (notes : String) : Nat × ShopState :=
  let addrFail := match addressId with
    | some aid => (findActiveAddress addrs aid uid).isNone
    | none => false
  if addrFail then (404, st)
  else
    match bodyItems with
    | some its => v1Finish cat st uid its "" bodyCurrency notes false
    | none =>
      match st.carts.lookup uid with
      | none => (400, st)
      | some c =>
        if c.items.isEmpty then (400, st)
        else v1Finish cat st uid (c.items.map (fun i => (i.product, i.quantity)))
               c.currency bodyCurrency notes true

/-- Tail of the second POST / order-creation handler
(src/routes/orders.js lines 408-459): build the order items at current
prices and create the order with the currency resolved from global
settings; then clear the cart when the items came from it. -/
def v2Finish (cat : Catalog) (settingsCurrency : String) (st : ShopState) (uid : Nat)
    (src : List (Nat × Nat)) (notes : String) (fromCart : Bool) : Nat × ShopState :=
  match buildOrderItemsPairs cat src with
  | none => (400, st)
  | some pr =>
    let seq := st.counter + 1
    let o : Order := { id := st.orders.length, orderCode := formatOrderCode seq,
                       user := uid, items := pr.1, totalAmount := pr.2,
                       currency := settingsCurrency, status := "pending",
                       notes := notes, isActive := true }
    let st2 : ShopState := { st with orders := st.orders ++ [o], counter := seq }
    (201, if fromCart then { st2 with carts := clearUserCart st2.carts uid } else st2)

/-- The second POST / order-creation handler (src/routes/orders.js lines
328-467): an addressId is mandatory (400 when absent, 404 when it does not
resolve to an active address of the target user), items come from the body
or else from the cart (400 when the cart is absent or empty — checked
after the address, before any write), then `v2Finish`. -/
def createOrderHandler (cat : Catalog) (addrs : List Address) (settingsCurrency : String)
    (st : ShopState) (uid : Nat) (addressId : Option Nat)
    (bodyItems : Option (List (Nat × Nat))) (notes : String) : Nat × ShopState :=
  match addressId with
  | none => (400, st)
  | some aid =>
    match findActiveAddress addrs aid uid with
    | none => (404, st)
    | some _ =>
      match bodyItems with
      | some its => v2Finish cat settingsCurrency st uid its notes false
      | none =>
        match st.carts.lookup uid with
        | none => (400, st)
        | some c =>
          if c.items.isEmpty then (400, st)
          else v2Finish cat settingsCurrency st uid
                 (c.items.map (fun i => (i.product, i.quantity))) notes true

end Shop

namespace Shop

theorem recalcCart_items (c : Cart) :
    (recalcCart c).items
      = c.items.map (fun it => { it with subtotal := it.price * (it.quantity : Rat) }) := rfl

theorem cartInvariant_recalc (c : Cart) : cartInvariant (recalcCart c) := by
  unfold cartInvariant recalcCart itemsTotal
  simp [List.map_map]
  rfl

theorem itemsTotal_nil : itemsTotal [] = 0 := rfl

theorem cartInvariant_applyOp (cat : Catalog) (c : Cart) (op : CartOp)
    (h : cartInvariant c) : cartInvariant (applyOp cat c op) := by
  cases op with
  | addOp pid qty =>
    simp only [applyOp]
    split
    · exact h
    · unfold cartAddItem
      split
      · exact cartInvariant_recalc _
      · exact cartInvariant_recalc _
  | setQtyOp pid qty =>
    simp only [applyOp]
    cases hq : cartSetQuantity c pid qty with
    | ok c2 =>
      unfold cartSetQuantity at hq
      split at hq
      · cases hq
        exact cartInvariant_recalc _
      · cases hq
    | error e => exact h
  | removeOp pid =>
    simp only [applyOp]
    cases hq : cartRemove c pid with
    | ok c2 =>
      simp only [cartRemove] at hq
      split at hq
      · cases hq
      · cases hq
        exact cartInvariant_recalc _
    | error e => exact h
  | clearOp =>
    simp only [applyOp]
    exact itemsTotal_nil.symm

/-- Claim C1: for every cart holding the total invariant and every sequence
of cart mutations (add, set-quantity, remove, clear), the cart's
totalAmount after the sequence equals the sum over the remaining line items
of item price times item quantity; each mutation recomputes the total from
the full item list via `recalcCart`. -/
theorem cart_total_invariant (cat : Catalog) (ops : List CartOp) (c : Cart)
    (h : cartInvariant c) : cartInvariant (applyOps cat ops c) := by
  induction ops generalizing c with
  | nil => exact h
  | cons op rest ih =>
    exact ih (applyOp cat c op) (cartInvariant_applyOp cat c op h)

/-- Witness for C1: a fresh cart run through one of each mutation kind
satisfies the total invariant. -/
theorem cart_total_invariant_witness :
    cartInvariant (applyOps [⟨1, "a", 10, true⟩, ⟨2, "b", 5, true⟩]
      [CartOp.addOp 1 2, CartOp.addOp 2 1, CartOp.addOp 1 3,
       CartOp.setQtyOp 2 4, CartOp.removeOp 1, CartOp.clearOp]
      { items := [], totalAmount := 0, currency := "USD" }) :=
  cart_total_invariant _ _ _ rfl

/-- Claim C9: the dashboard percentage change is
(current − previous) / previous × 100, with change 0 when both are zero
and change 100 when only the previous value is zero. -/
theorem pct_change_formula :
    pct 0 0 = 0 ∧ (∀ c : Rat, c ≠ 0 → pct c 0 = 100) ∧
    (∀ c p : Rat, p ≠ 0 → pct c p = (c - p) / p * 100) := by
  refine ⟨by simp [pct], ?_, ?_⟩
  · intro c hc
    simp [pct, hc]
  · intro c p hp
    simp [pct, hp]

/-- Witness for C9 at previous 0, current 5 and at previous 20, current 30. -/
theorem pct_change_formula_witness :
    pct 5 0 = 100 ∧ pct 30 20 = (30 - 20) / 20 * 100 :=
  ⟨pct_change_formula.2.1 5 (by norm_num),
   pct_change_formula.2.2 30 20 (by norm_num)⟩

theorem runCounter_eq (s n : Nat) :
    runCounter s n = (List.range n).map (fun k => s + k + 1) := by
  induction n generalizing s with
  | zero => rfl
  | succ n ih =>
    have h1 : runCounter s (n + 1) = (s + 1) :: runCounter (s + 1) n := by
      simp [runCounter, counterNext]
    rw [h1, ih, List.range_succ_eq_map, List.map_cons, List.map_map]
    refine List.cons_eq_cons.mpr ⟨by omega, List.map_congr_left ?_⟩
    intro k _
    simp [Function.comp]
    omega

theorem getD_map_range {α : Type} (f : Nat → α) (d : α) {n i : Nat} (h : i < n) :
    ((List.range n).map f).getD i d = f i := by
  rw [List.getD_eq_getElem?_getD, List.getElem?_map, List.getElem?_range h]
  rfl

/-- Claim C5: under single-threaded serialization, `n` successive order
creations return strictly increasing counter values with no gaps, and each
generated code is the fixed prefix `ORD-` followed by the raw integer with
no zero-padding. -/
theorem order_codes_sequential (s n : Nat) :
    (runCounter s n).Pairwise (fun a b => a < b) ∧
    (∀ i, i + 1 < n → (runCounter s n).getD (i + 1) 0 = (runCounter s n).getD i 0 + 1) ∧
    (∀ i, i < n → ((runCounter s n).map formatOrderCode).getD i ""
        = "ORD-" ++ toString (s + i + 1)) := by
  rw [runCounter_eq]
  refine ⟨?_, ?_, ?_⟩
  · exact List.Pairwise.map _ (fun a b hab => by omega) (List.pairwise_lt_range n)
  · intro i hi
    rw [getD_map_range _ _ hi, getD_map_range _ _ (by omega)]
    omega
  · intro i hi
    rw [List.map_map, getD_map_range _ _ hi]
    rfl

/-- Witness for C5 from the documented base value 1000: the second code's
integer immediately follows the first, and the third code's text. -/
theorem order_codes_sequential_witness :
    (runCounter 1000 3).getD 1 0 = (runCounter 1000 3).getD 0 0 + 1 ∧
    ((runCounter 1000 3).map formatOrderCode).getD 2 "" = "ORD-" ++ toString (1000 + 2 + 1) :=
  ⟨(order_codes_sequential 1000 3).2.1 0 (by decide),
   (order_codes_sequential 1000 3).2.2 2 (by decide)⟩

theorem findOrderById_setStatus (orders : List Order) (oid : Nat) (s : String) :
    findOrderById (orders.map (fun x => if x.id == oid then { x with status := s } else x)) oid
      = (findOrderById orders oid).map (fun o => { o with status := s }) := by
  induction orders with
  | nil => rfl
  | cons o rest ih =>
    cases h : (o.id == oid) with
    | true => simp [findOrderById, List.find?, h]
    | false =>
      simp only [findOrderById, List.map_cons, List.find?, h, if_neg, if_false]
      simpa [findOrderById, h] using ih

/-- Claim C4: for an active order and its owning user, owner cancel
succeeds exactly when the status is pending (setting it to cancelled);
on any of paid, shipped, delivered, cancelled or refunded it fails with
400 and the order list is left unchanged. -/
theorem owner_cancel_pending_only (orders : List Order) (o : Order) (oid : Nat)
    (hfind : findOrderById orders oid = some o) (hact : o.isActive = true) :
    (o.status = "pending" →
      (cancelOrderHandler orders o.user oid).1 = 200 ∧
      findOrderById (cancelOrderHandler orders o.user oid).2 oid
        = some { o with status := "cancelled" }) ∧
    (o.status ∈ ["paid", "shipped", "delivered", "cancelled", "refunded"] →
      cancelOrderHandler orders o.user oid = (400, orders)) := by
  constructor
  · intro hp
    have hres : (cancelOrderHandler orders o.user oid).2
        = orders.map (fun x => if x.id == oid then { x with status := "cancelled" } else x) := by
      simp [cancelOrderHandler, hfind, hact, hp]
    refine ⟨by simp [cancelOrderHandler, hfind, hact, hp], ?_⟩
    rw [hres, findOrderById_setStatus, hfind]
    rfl
  · intro hs
    have hne : (o.status == "pending") = false := by
      simp only [List.mem_cons, List.not_mem_nil, or_false] at hs
      rcases hs with h | h | h | h | h <;> rw [h] <;> rfl
    simp [cancelOrderHandler, hfind, hact, hne]

/-- Witness for C4: the pending order of user 7 is cancelled with 200. -/
theorem owner_cancel_pending_only_witness :
    (cancelOrderHandler [⟨1, "ORD-1001", 7, [⟨1, "x", 10, 1, 10⟩], 10, "USD", "pending", "", true⟩] 7 1).1 = 200 ∧
    findOrderById (cancelOrderHandler [⟨1, "ORD-1001", 7, [⟨1, "x", 10, 1, 10⟩], 10, "USD", "pending", "", true⟩] 7 1).2 1
      = some ⟨1, "ORD-1001", 7, [⟨1, "x", 10, 1, 10⟩], 10, "USD", "cancelled", "", true⟩ :=
  (owner_cancel_pending_only
    [⟨1, "ORD-1001", 7, [⟨1, "x", 10, 1, 10⟩], 10, "USD", "pending", "", true⟩]
    ⟨1, "ORD-1001", 7, [⟨1, "x", 10, 1, 10⟩], 10, "USD", "pending", "", true⟩ 1 rfl rfl).1 rfl

/-- Claim C10: the elevated status update by direct identifier applies no
active-only filter, so it succeeds (200) on a soft-deleted order and
rewrites its status, while single-order read and owner cancel on the same
soft-deleted order answer 404. -/
theorem status_update_ignores_active_filter (orders : List Order) (o : Order) (oid : Nat)
    (s role : String) (hfind : findOrderById orders oid = some o)
    (hinact : o.isActive = false) (hs : orderStatuses.contains s = true) :
    (updateStatusHandler orders oid s).1 = 200 ∧
    findOrderById (updateStatusHandler orders oid s).2 oid = some { o with status := s } ∧
    getOrderHandler orders o.user role oid = 404 ∧
    cancelOrderHandler orders o.user oid = (404, orders) := by
  have hs2 : s ∈ orderStatuses := by simpa using hs
  have hres : (updateStatusHandler orders oid s).2
      = orders.map (fun x => if x.id == oid then { x with status := s } else x) := by
    simp [updateStatusHandler, hfind, hs2]
  refine ⟨by simp [updateStatusHandler, hfind, hs2], ?_, ?_, ?_⟩
  · rw [hres, findOrderById_setStatus, hfind]
    rfl
  · simp [getOrderHandler, hfind, hinact]
  · simp [cancelOrderHandler, hfind, hinact]

/-- Witness for C10: a soft-deleted pending order is moved to paid by the
elevated status update while read and cancel report 404. -/
theorem status_update_ignores_active_filter_witness :
    (updateStatusHandler [⟨1, "ORD-1001", 7, [⟨1, "x", 10, 1, 10⟩], 10, "USD", "pending", "", false⟩] 1 "paid").1 = 200 ∧
    findOrderById (updateStatusHandler [⟨1, "ORD-1001", 7, [⟨1, "x", 10, 1, 10⟩], 10, "USD", "pending", "", false⟩] 1 "paid").2 1
      = some ⟨1, "ORD-1001", 7, [⟨1, "x", 10, 1, 10⟩], 10, "USD", "paid", "", false⟩ ∧
    getOrderHandler [⟨1, "ORD-1001", 7, [⟨1, "x", 10, 1, 10⟩], 10, "USD", "pending", "", false⟩] 7 "admin" 1 = 404 ∧
    cancelOrderHandler [⟨1, "ORD-1001", 7, [⟨1, "x", 10, 1, 10⟩], 10, "USD", "pending", "", false⟩] 7 1
      = (404, [⟨1, "ORD-1001", 7, [⟨1, "x", 10, 1, 10⟩], 10, "USD", "pending", "", false⟩]) :=
  status_update_ignores_active_filter
    [⟨1, "ORD-1001", 7, [⟨1, "x", 10, 1, 10⟩], 10, "USD", "pending", "", false⟩]
    ⟨1, "ORD-1001", 7, [⟨1, "x", 10, 1, 10⟩], 10, "USD", "pending", "", false⟩
    1 "paid" "admin" rfl rfl rfl

/-- Claim C7 counterexample: adding an inactive product to the cart
answers HTTP 400, not the 404 the claim states. -/
theorem cart_add_missing_product_counterexample :
    (addToCartHandler [⟨1, "x", 10, false⟩] "USD" [] 7 1 2).1 = 400 ∧
    (addToCartHandler [⟨1, "x", 10, false⟩] "USD" [] 7 1 2).1 ≠ 404 := by
  decide

/-- Claim C7 (amended): a cart-add naming a product that is absent from
the catalog or inactive fails with HTTP 400 before the cart is even
fetched, so the cart store — hence the cart's item list and total — is
unchanged. -/
theorem cart_add_missing_product_rejected (cat : Catalog) (cur : String) (cs : CartStore)
    (uid pid qty : Nat) (h : findActiveProduct cat pid = none) :
    addToCartHandler cat cur cs uid pid qty = (400, cs) := by
  simp [addToCartHandler, h]

/-- Witness for the amended C7: adding inactive product 1 leaves user 7's
cart untouched and answers 400. -/
theorem cart_add_missing_product_rejected_witness :
    addToCartHandler [⟨1, "x", 10, false⟩] "USD"
        [(7, ⟨[⟨2, "y", 5, 1, 5⟩], 5, "USD"⟩)] 7 1 2
      = (400, [(7, ⟨[⟨2, "y", 5, 1, 5⟩], 5, "USD"⟩)]) :=
  cart_add_missing_product_rejected [⟨1, "x", 10, false⟩] "USD"
    [(7, ⟨[⟨2, "y", 5, 1, 5⟩], 5, "USD"⟩)] 7 1 2 rfl

theorem lookup_setCart (cs : CartStore) (uid : Nat) (c : Cart)
    (h : (cs.lookup uid).isSome) : (setCart cs uid c).lookup uid = some c := by
  induction cs with
  | nil => simp [List.lookup] at h
  | cons p rest ih =>
    cases hk : (p.1 == uid) with
    | true =>
      have hk2 : p.1 = uid := by simpa using hk
      simp [setCart, hk, List.lookup]
    | false =>
      have hk2 : p.1 ≠ uid := by simpa using hk
      have hne2 : (uid == p.1) = false := by
        simpa using (Ne.symm hk2)
      simp only [List.lookup, hne2] at h
      simp only [setCart, hk, if_false, List.lookup, hne2]
      exact ih h

theorem getOrCreateCart_found (cur : String) (cs : CartStore) (uid : Nat) (c : Cart)
    (h : cs.lookup uid = some c) :
    (getOrCreateCart cur cs uid).1.items = c.items ∧
    (getOrCreateCart cur cs uid).1.currency = cur ∧
    (getOrCreateCart cur cs uid).2.lookup uid = some (getOrCreateCart cur cs uid).1 := by
  simp only [getOrCreateCart, h]
  by_cases hc : (c.currency == "" || !(c.currency == cur)) = true
  · rw [if_pos hc]
    exact ⟨rfl, rfl, lookup_setCart cs uid _ (by rw [h]; rfl)⟩
  · have hcur : c.currency = cur := by
      simp only [Bool.or_eq_true, Bool.not_eq_true', beq_iff_eq, beq_eq_false_iff_ne] at hc
      push_neg at hc
      exact hc.2
    rw [if_neg hc]
    exact ⟨rfl, hcur, h⟩

/-- Claim C3 counterexample: when the target user has no cart document,
the failing checkout still performs a write before rejecting — it lazily
creates an empty cart, so the cart store changes. -/
theorem empty_cart_checkout_write_counterexample :
    (checkoutHandler [] "USD" ⟨[], [], 1000⟩ 7 "").1 = 400 ∧
    (checkoutHandler [] "USD" ⟨[], [], 1000⟩ 7 "").2.carts ≠ [] := by
  decide

/-- Claim C3 (amended): a checkout or an order creation without an
explicit item list, when the target user's cart is absent or empty, fails
with HTTP 400 and creates no order; the order-creation path performs no
write at all, while the checkout path may first lazily create an empty
cart document before failing. -/
theorem empty_cart_checkout_rejected (cat : Catalog) (addrs : List Address)
    (cur : String) (st : ShopState) (uid aid : Nat) (notes : String)
    (hcart : ∀ c, st.carts.lookup uid = some c → c.items = [])
    (haddr : (findActiveAddress addrs aid uid).isSome) :
    ((checkoutHandler cat cur st uid notes).1 = 400 ∧
     (checkoutHandler cat cur st uid notes).2.orders = st.orders) ∧
    createOrderHandler cat addrs cur st uid (some aid) none notes = (400, st) := by
  constructor
  · have h1 : (getOrCreateCart cur st.carts uid).1.items = [] := by
      cases h : st.carts.lookup uid with
      | none => simp [getOrCreateCart, h, emptyCart]
      | some c => rw [(getOrCreateCart_found cur st.carts uid c h).1, hcart c h]
    constructor
    · simp [checkoutHandler, h1]
    · simp [checkoutHandler, h1]
  · obtain ⟨a, ha⟩ := Option.isSome_iff_exists.mp haddr
    simp only [createOrderHandler, ha]
    cases h : st.carts.lookup uid with
    | none => simp [h]
    | some c => simp [h, hcart c h]

/-- Witness for the amended C3: with no cart document, checkout answers
400 with no order and the order-creation handler leaves the state
unchanged. -/
theorem empty_cart_checkout_rejected_witness :
    ((checkoutHandler [] "USD" ⟨[], [], 1000⟩ 7 "").1 = 400 ∧
     (checkoutHandler [] "USD" ⟨[], [], 1000⟩ 7 "").2.orders = ([] : List Order)) ∧
    createOrderHandler [] [⟨5, 7, true⟩] "USD" ⟨[], [], 1000⟩ 7 (some 5) none ""
      = (400, ⟨[], [], 1000⟩) :=
  empty_cart_checkout_rejected [] [⟨5, 7, true⟩] "USD" ⟨[], [], 1000⟩ 7 5 ""
    (fun _ hc => nomatch hc) rfl

theorem buildCheckoutItems_total (cat : Catalog) (l : List LineItem)
    (hall : ∀ i ∈ l, (findActiveProduct cat i.product).isSome) :
    ∃ its, buildCheckoutItems cat l = some (its, currentTotal cat l) := by
  induction l with
  | nil => exact ⟨[], rfl⟩
  | cons i rest ih =>
    obtain ⟨p, hp⟩ := Option.isSome_iff_exists.mp (hall i (List.mem_cons_self i rest))
    obtain ⟨its, hits⟩ := ih (fun j hj => hall j (List.mem_cons_of_mem i hj))
    refine ⟨⟨p.id, p.name, p.price, i.quantity, p.price * (i.quantity : Rat)⟩ :: its, ?_⟩
    simp only [buildCheckoutItems, hp, hits]
    simp [currentTotal, hp]

/-- Claim C2: checkout of a non-empty cart whose products are all still
active creates the order (201) with totalAmount equal to the sum of
current catalog price times cart quantity — the cart's cached prices play
no role — and leaves the cart with an empty item list and zero total. -/
theorem checkout_total_and_clear (cat : Catalog) (cur : String) (st : ShopState)
    (uid : Nat) (notes : String) (c : Cart)
    (hc : st.carts.lookup uid = some c) (hne : c.items ≠ [])
    (hall : ∀ i ∈ c.items, (findActiveProduct cat i.product).isSome) :
    (checkoutHandler cat cur st uid notes).1 = 201 ∧
    (checkoutHandler cat cur st uid notes).2.orders.map (fun o => o.totalAmount)
      = st.orders.map (fun o => o.totalAmount) ++ [currentTotal cat c.items] ∧
    (checkoutHandler cat cur st uid notes).2.carts.lookup uid
      = some { items := [], totalAmount := 0, currency := cur } := by
  obtain ⟨hitems, hcur, hlook⟩ := getOrCreateCart_found cur st.carts uid c hc
  obtain ⟨its, hbuild⟩ := buildCheckoutItems_total cat c.items hall
  have hni : c.items.isEmpty = false := by
    cases hl : c.items with
    | nil => exact absurd hl hne
    | cons a l => rfl
  have hsome : ((getOrCreateCart cur st.carts uid).2.lookup uid).isSome := by
    rw [hlook]
    rfl
  simp only [checkoutHandler, hitems, hbuild]
  rw [if_neg (by rw [hni]; exact Bool.false_ne_true)]
  refine ⟨rfl, by simp, ?_⟩
  rw [lookup_setCart _ _ _ hsome, hcur]

/-- Witness for C2: the cart caches stale prices (7 for product 1); the
order total is 25 from current prices 10 and 5, and the cart ends empty. -/
theorem checkout_total_and_clear_witness :
    (checkoutHandler [⟨1, "a", 10, true⟩, ⟨2, "b", 5, true⟩] "USD"
        ⟨[(7, ⟨[⟨1, "a", 7, 2, 14⟩, ⟨2, "b", 5, 1, 5⟩], 19, "USD"⟩)], [], 1000⟩ 7 "").1 = 201 ∧
    (checkoutHandler [⟨1, "a", 10, true⟩, ⟨2, "b", 5, true⟩] "USD"
        ⟨[(7, ⟨[⟨1, "a", 7, 2, 14⟩, ⟨2, "b", 5, 1, 5⟩], 19, "USD"⟩)], [], 1000⟩ 7 "").2.orders.map (fun o => o.totalAmount)
      = ([] : List Order).map (fun o => o.totalAmount)
        ++ [currentTotal [⟨1, "a", 10, true⟩, ⟨2, "b", 5, true⟩] [⟨1, "a", 7, 2, 14⟩, ⟨2, "b", 5, 1, 5⟩]] ∧
    (checkoutHandler [⟨1, "a", 10, true⟩, ⟨2, "b", 5, true⟩] "USD"
        ⟨[(7, ⟨[⟨1, "a", 7, 2, 14⟩, ⟨2, "b", 5, 1, 5⟩], 19, "USD"⟩)], [], 1000⟩ 7 "").2.carts.lookup 7
      = some { items := [], totalAmount := 0, currency := "USD" } :=
  checkout_total_and_clear [⟨1, "a", 10, true⟩, ⟨2, "b", 5, true⟩] "USD"
    ⟨[(7, ⟨[⟨1, "a", 7, 2, 14⟩, ⟨2, "b", 5, 1, 5⟩], 19, "USD"⟩)], [], 1000⟩ 7 ""
    ⟨[⟨1, "a", 7, 2, 14⟩, ⟨2, "b", 5, 1, 5⟩], 19, "USD"⟩ rfl (by decide) (by decide)

/-- Claim C6 counterexample: the first order-creation handler honors a
client-supplied currency — it never consults global settings and creates
the order with the body's "EUR". -/
theorem currency_override_counterexample :
    (createOrderHandlerV1 [⟨1, "a", 10, true⟩] [] ⟨[], [], 1000⟩ 7 none
        (some [(1, 2)]) (some "EUR") "").1 = 201 ∧
    ((createOrderHandlerV1 [⟨1, "a", 10, true⟩] [] ⟨[], [], 1000⟩ 7 none
        (some [(1, 2)]) (some "EUR") "").2.orders.map (fun o => o.currency)) = ["EUR"] := by
  decide

theorem v2Finish_currencies (cat : Catalog) (cur : String) (st : ShopState)
    (uid : Nat) (src : List (Nat × Nat)) (notes : String) (fromCart : Bool) :
    (v2Finish cat cur st uid src notes fromCart).2.orders.map (fun o => o.currency)
        = st.orders.map (fun o => o.currency) ∨
    (v2Finish cat cur st uid src notes fromCart).2.orders.map (fun o => o.currency)
        = st.orders.map (fun o => o.currency) ++ [cur] := by
  simp only [v2Finish]
  split
  · exact Or.inl rfl
  · cases fromCart with
    | false => exact Or.inr (by simp)
    | true => exact Or.inr (by simp)

/-- Claim C6 (amended): the cart checkout handler and the second
order-creation handler give every created order the currency resolved from
global settings — the order list's currencies either stay unchanged or
grow by exactly the settings currency, and neither handler reads a
currency from the request body; the first order-creation handler instead
honors a client-supplied currency, falling back to the cart's cached
currency and then "USD", and never consults settings. -/
theorem order_currency_from_settings (cat : Catalog) (addrs : List Address)
    (cur : String) (st : ShopState) (uid : Nat) (notes : String)
    (addressId : Option Nat) (bodyItems : Option (List (Nat × Nat))) :
    ((checkoutHandler cat cur st uid notes).2.orders.map (fun o => o.currency)
         = st.orders.map (fun o => o.currency) ∨
     (checkoutHandler cat cur st uid notes).2.orders.map (fun o => o.currency)
         = st.orders.map (fun o => o.currency) ++ [cur]) ∧
    ((createOrderHandler cat addrs cur st uid addressId bodyItems notes).2.orders.map
          (fun o => o.currency)
         = st.orders.map (fun o => o.currency) ∨
     (createOrderHandler cat addrs cur st uid addressId bodyItems notes).2.orders.map
          (fun o => o.currency)
         = st.orders.map (fun o => o.currency) ++ [cur]) := by
  constructor
  · simp only [checkoutHandler]
    split
    · exact Or.inl rfl
    · split
      · exact Or.inl rfl
      · exact Or.inr (by simp)
  · simp only [createOrderHandler]
    split
    · exact Or.inl rfl
    · split
      · exact Or.inl rfl
      · split
        · exact v2Finish_currencies _ _ _ _ _ _ _
        · split
          · exact Or.inl rfl
          · split
            · exact Or.inl rfl
            · exact v2Finish_currencies _ _ _ _ _ _ _

theorem findActiveProduct_id (cat : Catalog) (pid : Nat) (p : Product)
    (h : findActiveProduct cat pid = some p) : p.id = pid := by
  have h2 := List.find?_some h
  simp only [Bool.and_eq_true, beq_iff_eq] at h2
  exact h2.1

theorem cartProducts_recalc (c : Cart) : cartProducts (recalcCart c) = cartProducts c := by
  simp only [cartProducts, recalcCart, List.map_map]
  rfl

theorem qtyIn_map_subtotal (pid : Nat) (l : List LineItem) :
    qtyIn pid (l.map (fun it => { it with subtotal := it.price * (it.quantity : Rat) }))
      = qtyIn pid l := by
  induction l with
  | nil => rfl
  | cons it rest ih =>
    cases h : (it.product == pid) with
    | true => simp only [qtyIn, List.map_cons, List.filter_cons] at ih ⊢; simp [h, ih]
    | false => simp only [qtyIn, List.map_cons, List.filter_cons] at ih ⊢; simp [h, ih]

theorem qtyIn_recalc (pid : Nat) (c : Cart) :
    qtyIn pid (recalcCart c).items = qtyIn pid c.items :=
  qtyIn_map_subtotal pid c.items

theorem addQtyTo_products (pid qty : Nat) (l : List LineItem) :
    (addQtyTo pid qty l).map (fun i => i.product) = l.map (fun i => i.product) := by
  induction l with
  | nil => rfl
  | cons it rest ih =>
    cases h : (it.product == pid) with
    | true => simp [addQtyTo, h]
    | false => simp [addQtyTo, h, ih]

theorem qtyIn_addQtyTo (pid qty : Nat) (l : List LineItem)
    (h : pid ∈ l.map (fun i => i.product)) :
    qtyIn pid (addQtyTo pid qty l) = qtyIn pid l + qty := by
  induction l with
  | nil => simp at h
  | cons it rest ih =>
    cases hp : (it.product == pid) with
    | true =>
      simp only [addQtyTo, hp, if_true, qtyIn, List.filter_cons]
      simp [hp]
      omega
    | false =>
      have h2 : pid ∈ rest.map (fun i => i.product) := by
        simp only [List.map_cons, List.mem_cons] at h
        rcases h with h | h
        · exact absurd h.symm (by simpa using hp)
        · exact h
      have ihr := ih h2
      simp only [addQtyTo, hp, Bool.false_eq_true, if_false, qtyIn] at ihr ⊢
      rw [List.filter_cons, if_neg (by simp [hp]), List.filter_cons,
        if_neg (by simp [hp])]
      exact ihr

theorem setQtyIn_products (pid qty : Nat) (l : List LineItem) :
    (setQtyIn pid qty l).map (fun i => i.product) = l.map (fun i => i.product) := by
  induction l with
  | nil => rfl
  | cons it rest ih =>
    cases h : (it.product == pid) with
    | true => simp [setQtyIn, h]
    | false => simp [setQtyIn, h, ih]

theorem removeFirst_sublist (pid : Nat) (l : List LineItem) :
    List.Sublist (removeFirst pid l) l := by
  induction l with
  | nil => exact List.Sublist.refl []
  | cons it rest ih =>
    cases h : (it.product == pid) with
    | true =>
      simp only [removeFirst, h, if_true]
      exact List.sublist_cons_self it rest
    | false =>
      simp only [removeFirst, h, Bool.false_eq_true, if_false]
      exact List.Sublist.cons₂ it ih

theorem nodup_applyOp (cat : Catalog) (c : Cart) (op : CartOp)
    (h : (cartProducts c).Nodup) : (cartProducts (applyOp cat c op)).Nodup := by
  cases op with
  | addOp pid qty =>
    simp only [applyOp]
    split
    · exact h
    · unfold cartAddItem
      split
      · rw [cartProducts_recalc]
        simpa only [cartProducts, addQtyTo_products] using h
      · rename_i p hfp hany
        have hanyf : (c.items.any fun i => i.product == p.id) = false := by
          simpa using hany
        have hnm : p.id ∉ c.items.map (fun i => i.product) := by
          intro hmem
          rcases List.mem_map.mp hmem with ⟨i, hi, hip⟩
          have h2 := List.any_eq_false.mp hanyf i hi
          rw [hip] at h2
          simp at h2
        rw [cartProducts_recalc]
        simp only [cartProducts, List.map_append, List.map_cons, List.map_nil]
        rw [List.nodup_append]
        refine ⟨h, List.nodup_singleton _, ?_⟩
        intro a ha hb
        simp only [List.mem_singleton] at hb
        subst hb
        exact hnm ha
  | setQtyOp pid qty =>
    simp only [applyOp]
    cases hq : cartSetQuantity c pid qty with
    | error e => exact h
    | ok c2 =>
      simp only [cartSetQuantity] at hq
      split at hq
      · cases hq
        rw [cartProducts_recalc]
        cases hz : (qty == 0) with
        | true =>
          rw [if_pos rfl]
          exact List.Nodup.sublist
            (List.Sublist.map _ (removeFirst_sublist pid c.items)) h
        | false =>
          rw [if_neg Bool.false_ne_true]
          have he := setQtyIn_products pid qty c.items
          simpa only [cartProducts, he] using h
      · cases hq
  | removeOp pid =>
    simp only [applyOp]
    cases hq : cartRemove c pid with
    | error e => exact h
    | ok c2 =>
      simp only [cartRemove] at hq
      split at hq
      · cases hq
      · cases hq
        rw [cartProducts_recalc]
        exact List.Nodup.sublist
          (List.Sublist.map _ (List.filter_sublist c.items)) h
  | clearOp =>
    simp only [applyOp]
    exact List.nodup_nil

theorem nodup_applyOps (cat : Catalog) (ops : List CartOp) (c : Cart)
    (h : (cartProducts c).Nodup) : (cartProducts (applyOps cat ops c)).Nodup := by
  induction ops generalizing c with
  | nil => exact h
  | cons op rest ih => exact ih _ (nodup_applyOp cat c op h)

/-- Claim C8: starting from a cart with no duplicate product references,
no sequence of mutations ever produces a duplicate, and adding a product
already in the cart keeps the product list unchanged (no second line item)
while its quantity grows by the requested amount. -/
theorem cart_add_accumulates (cat : Catalog) (c : Cart)
    (h : (cartProducts c).Nodup) :
    (∀ ops, (cartProducts (applyOps cat ops c)).Nodup) ∧
    (∀ pid p qty, findActiveProduct cat pid = some p → pid ∈ cartProducts c →
      cartProducts (cartAddItem p qty c) = cartProducts c ∧
      qtyIn pid (cartAddItem p qty c).items = qtyIn pid c.items + qty) := by
  refine ⟨fun ops => nodup_applyOps cat ops c h, ?_⟩
  intro pid p qty hfp hmem
  have hid : p.id = pid := findActiveProduct_id cat pid p hfp
  subst hid
  have hany : (c.items.any fun i => i.product == p.id) = true := by
    rcases List.mem_map.mp hmem with ⟨i, hi, hip⟩
    exact List.any_eq_true.mpr ⟨i, hi, by simp [hip]⟩
  unfold cartAddItem
  rw [if_pos hany]
  constructor
  · rw [cartProducts_recalc]
    simpa only [cartProducts] using addQtyTo_products p.id qty c.items
  · rw [qtyIn_recalc]
    exact qtyIn_addQtyTo p.id qty c.items hmem

/-- Witness for C8: re-adding product 1 (already at quantity 2) with
quantity 3 keeps one line item and yields total quantity 5. -/
theorem cart_add_accumulates_witness :
    cartProducts (cartAddItem ⟨1, "a", 10, true⟩ 3 ⟨[⟨1, "a", 10, 2, 20⟩], 20, "USD"⟩)
        = cartProducts ⟨[⟨1, "a", 10, 2, 20⟩], 20, "USD"⟩ ∧
    qtyIn 1 (cartAddItem ⟨1, "a", 10, true⟩ 3 ⟨[⟨1, "a", 10, 2, 20⟩], 20, "USD"⟩).items
        = qtyIn 1 (⟨[⟨1, "a", 10, 2, 20⟩], 20, "USD"⟩ : Cart).items + 3 :=
  (cart_add_accumulates [⟨1, "a", 10, true⟩] ⟨[⟨1, "a", 10, 2, 20⟩], 20, "USD"⟩
      (by decide)).2 1 ⟨1, "a", 10, true⟩ 3 rfl (by decide)

end Shop
